import Mathlib

/-!
Verification of the ScienceBase deduplication and reconciliation core.

Shallow embedding of:
  * `clean_text`, `clean_doi`, `count_unique_publications`
    (src/ScienceBase/dashboard_app.py and the near-identical variant in
    src/dashboard_app.py),
  * `ORCIDSmartUpdater.has_file_changed` (src/smart_orcid_updater.py),
  * `ORCIDSmartUpdater.test_orcid_validity_with_works` and
    `extract_publication_details` (src/smart_orcid_updater.py),
  * the tail of `ORCIDSmartUpdater.smart_update` around
    `save_excel_with_both_sheets` (src/smart_orcid_updater.py).

Strings are modelled at the ASCII level: Python's `str.lower`, `str.strip`,
`\s`, `\w` and `\d` are modelled by their ASCII meanings (all data the
claims touch is ASCII).  Pandas cells are modelled by `Cell`
(missing / string / integer); floating-point cells are outside the model.
-/

/-- ASCII model of the character class matched by Python's regex `\s`
(and of the characters removed by `str.strip`): space, tab, newline,
carriage return, vertical tab, form feed. -/
def pyIsSpace (c : Char) : Bool :=
  c = ' ' || c = '\t' || c = '\n' || c = '\r' ||
  c = Char.ofNat 11 || c = Char.ofNat 12

/-- ASCII model of Python's regex `\w`: letters, digits and underscore. -/
def pyIsWord (c : Char) : Bool :=
  c.isAlpha || c.isDigit || c = '_'

/-- Python `str.strip()` on a character list: drop whitespace from both ends. -/
def pyStripList (cs : List Char) : List Char :=
  ((cs.dropWhile pyIsSpace).reverse.dropWhile pyIsSpace).reverse

/-- Python `str.strip()`. -/
def pyStrip (s : String) : String :=
  ⟨pyStripList s.toList⟩

/-- Python `str.lower()` (ASCII letters only). -/
def pyLower (s : String) : String :=
  ⟨s.toList.map Char.toLower⟩

/-- Does the second list start with the first? -/
def listStartsWith : List Char → List Char → Bool
  | [], _ => true
  | _ :: _, [] => false
  | a :: ps, b :: ss => a = b && listStartsWith ps ss

/-- Anchored-at-start match of a literal, as Python's `re.sub(r'^lit', ...)`
tests it. -/
def strStartsWith (s p : String) : Bool :=
  listStartsWith p.toList s.toList

/-- Drop the first `n` characters of a string. -/
def strDrop (s : String) (n : Nat) : String :=
  ⟨s.toList.drop n⟩

/-- Loop of `pySquashSpaces`: the flag records whether the previous kept
character position was inside a whitespace run (in which case further
whitespace of the same run is dropped). -/
def pySquashSpacesAux : Bool → List Char → List Char
  | _, [] => []
  | prevSpace, c :: rest =>
    if pyIsSpace c then
      if prevSpace then pySquashSpacesAux true rest
      else ' ' :: pySquashSpacesAux true rest
    else c :: pySquashSpacesAux false rest

/-- Python `re.sub(r'\s+', ' ', s)`: every maximal run of whitespace is
replaced by a single space. -/
def pySquashSpaces (cs : List Char) : List Char :=
  pySquashSpacesAux false cs

/-- A pandas cell as the dedup code sees it: missing (NaN / None),
a string, or an integer. -/
inductive Cell where
  | na : Cell
  | str : String → Cell
  | int : Int → Cell
deriving DecidableEq, Repr

/-- Python `str(v)` on a non-missing cell. -/
def cellStr : Cell → String
  | Cell.na => ""
  | Cell.str s => s
  | Cell.int n => toString n

/-- Embedding of `clean_text` from src/ScienceBase/dashboard_app.py.
The character class of its punctuation-removal regex literally contains a
newline: `re.sub(r'[^\n\w\s]', '', text)` (the raw string spans two source
lines), so a character is kept when it is a newline, a word character or
whitespace.  Pipeline: NaN/None to empty, `str(text).lower().strip()`,
squash whitespace runs to one space, remove the punctuation characters. -/
def clean_text (c : Cell) : String :=
  match c with
  | Cell.na => ""
  | v =>
    let s := pyStripList (pyLower (cellStr v)).toList
    let s := pySquashSpaces s
    ⟨s.filter fun ch => ch = '\n' || pyIsWord ch || pyIsSpace ch⟩

/-- Embedding of `clean_text` from src/dashboard_app.py: identical to the
ScienceBase variant except that the punctuation regex is the one-line
`re.sub(r'[^\w\s]', '', text)` (no explicit newline in the class). -/
def clean_text_root (c : Cell) : String :=
  match c with
  | Cell.na => ""
  | v =>
    let s := pyStripList (pyLower (cellStr v)).toList
    let s := pySquashSpaces s
    ⟨s.filter fun ch => pyIsWord ch || pyIsSpace ch⟩

/-- Embedding of `clean_doi` (textually identical, up to docstring, in
src/dashboard_app.py and src/ScienceBase/dashboard_app.py).
NaN / None / the empty string map to the empty key; otherwise
`str(doi).lower().strip()`, then the anchored substitutions
`re.sub(r'^https?://doi\.org/', '', doi)`, `re.sub(r'^doi:', '', doi)`,
`re.sub(r'^\s*', '', doi)`, `re.sub(r'\s*$', '', doi)`. -/
def clean_doi (c : Cell) : String :=
  if c = Cell.na ∨ cellStr c = "" then ""
  else
    let s := pyStrip (pyLower (cellStr c))
    let s := if strStartsWith s "https://doi.org/" then strDrop s 16
             else if strStartsWith s "http://doi.org/" then strDrop s 15
             else s
    let s := if strStartsWith s "doi:" then strDrop s 4 else s
    pyStrip s

/-- Embedding of `df['year'].fillna('').astype(str)` applied to one cell. -/
def year_clean (c : Cell) : String :=
  match c with
  | Cell.na => ""
  | v => cellStr v

/-- One row of the publication-details table, as consumed by
`count_unique_publications`: the columns the function reads. -/
structure Row where
  doi : Cell
  title : Cell
  journal : Cell
  year : Cell
deriving DecidableEq, Repr

/-- A row together with its derived clean columns (`doi_clean`,
`title_clean`, `journal_clean`, `year_clean`), i.e. a row of the working
copy `df` after the four assignments at the top of the `try:` block. -/
structure CRow where
  row : Row
  doi_clean : String
  title_clean : String
  journal_clean : String
  year_clean : String
deriving DecidableEq, Repr

/-- `pandas.DataFrame.drop_duplicates(subset=key, keep='first')`: keep, in
stable order, only the first occurrence of every key value. -/
def dropDuplicatesBy {α κ : Type} [DecidableEq κ] (key : α → κ) :
    List κ → List α → List α
  | _, [] => []
  | seen, x :: rest =>
    if key x ∈ seen then dropDuplicatesBy key seen rest
    else x :: dropDuplicatesBy key (key x :: seen) rest

/-- The clean-column annotation of the working copy: the four `apply` /
`fillna().astype(str)` assignments of `count_unique_publications`
(ScienceBase variant, which uses its own `clean_text`). -/
def annotate (rows : List Row) : List CRow :=
  rows.map fun r =>
    ⟨r, clean_doi r.doi, clean_text r.title, clean_text r.journal,
      year_clean r.year⟩

/-- Same annotation built with the src/dashboard_app.py `clean_text`. -/
def annotate_root (rows : List Row) : List CRow :=
  rows.map fun r =>
    ⟨r, clean_doi r.doi, clean_text_root r.title, clean_text_root r.journal,
      year_clean r.year⟩

/-- The eligibility mask of step 2 of `count_unique_publications`:
`(title_clean.str.len() > 10) & (title_clean != 'unknown title') &
(title_clean != '')`. -/
def eligibleTitle (r : CRow) : Bool :=
  decide (r.title_clean.length > 10) && r.title_clean ≠ "unknown title" &&
  r.title_clean ≠ ""

/-- Body of the `try:` block of `count_unique_publications`, starting from
an already annotated working copy `df`:
`df_no_doi_duplicates = df.drop_duplicates(subset=['doi_clean'], ...)`,
the eligibility mask, the title+journal+year `drop_duplicates`, and the
returned triple
`(total_unique, doi_duplicates_removed + title_duplicates_removed,
unique_publications)`. -/
def count_unique_body_of (df : List CRow) : Nat × Nat × List CRow :=
  let df_no_doi_duplicates := dropDuplicatesBy (fun r => r.doi_clean) [] df
  let doi_duplicates_removed := df.length - df_no_doi_duplicates.length
  let valid_titles := df_no_doi_duplicates.filter eligibleTitle
  let unique_publications :=
    dropDuplicatesBy
      (fun r => (r.title_clean, r.journal_clean, r.year_clean)) [] valid_titles
  let title_duplicates_removed :=
    valid_titles.length - unique_publications.length
  (unique_publications.length,
   doi_duplicates_removed + title_duplicates_removed, unique_publications)

/-- Embedding of `count_unique_publications` from
src/ScienceBase/dashboard_app.py on a well-typed frame (all four columns
present, cells of `Cell` shape — on such input no step of the `try:` body
raises, so this is the non-fallback path; the fallback ladder is modelled
below by `count_unique_publications_safe`). -/
def count_unique_publications (rows : List Row) : Nat × Nat × List CRow :=
  if rows.isEmpty then (0, 0, [])
  else count_unique_body_of (annotate rows)

/-- Embedding of `count_unique_publications` from src/dashboard_app.py
(the variant whose identifiers say "shared" instead of "duplicates"); the
algorithm is written out with its own `clean_text_root`. -/
def count_unique_publications_root (rows : List Row) : Nat × Nat × List CRow :=
  if rows.isEmpty then (0, 0, [])
  else count_unique_body_of (annotate_root rows)

/-- An input frame on which `count_unique_publications` can raise: pandas
column access `df['doi']` etc. raises `KeyError` when the column is
absent.  The flags say which of the four consumed columns exist; the rows
carry the cell data.  (With `Cell`-shaped cells, missing columns are the
failure mode of the function inside this program: the cell-level
operations themselves are total.) -/
structure PFrame where
  hasDoi : Bool
  hasTitle : Bool
  hasJournal : Bool
  hasYear : Bool
  rows : List Row
deriving Repr

/-- The `try:` body of `count_unique_publications` with column access made
fallible, in source order: `df['doi'].apply(clean_doi)` raises first when
the `doi` column is missing, then `df['title']`, `df['journal']`,
`df['year']`; otherwise the body computes `count_unique_body_of`. -/
def count_unique_core (f : PFrame) : Except Unit (Nat × Nat × List CRow) :=
  if !f.hasDoi then Except.error ()
  else if !f.hasTitle then Except.error ()
  else if !f.hasJournal then Except.error ()
  else if !f.hasYear then Except.error ()
  else Except.ok (count_unique_body_of (annotate f.rows))

/-- `nunique` of the non-empty cleaned identifiers of a frame:
`df['doi_clean'][df['doi_clean'] != ''].nunique()`. -/
def fallback_unique_dois (rows : List Row) : Nat :=
  (dropDuplicatesBy (fun s => s) []
    ((rows.map fun r => clean_doi r.doi).filter fun s => s ≠ "")).length

/-- First fallback of `count_unique_publications`: it reads
`df['doi_clean']`, which exists in the working copy exactly when the
`doi` column existed (the `doi_clean` assignment is the first line of the
`try:` body), and returns
`(unique_dois, len(df) - unique_dois, pd.DataFrame())`. -/
def count_unique_fallback (f : PFrame) : Except Unit (Nat × Nat × List CRow) :=
  if !f.hasDoi then Except.error ()
  else
    let unique_dois := fallback_unique_dois f.rows
    Except.ok (unique_dois, f.rows.length - unique_dois, [])

/-- Embedding of `count_unique_publications` with its full
`try / except / except` ladder: empty input short-circuits before the
`try:`; then the full algorithm, then the identifier-only fallback, then
the bare `except: return len(df), 0, pd.DataFrame()`. -/
def count_unique_publications_safe (f : PFrame) : Nat × Nat × List CRow :=
  if f.rows.isEmpty then (0, 0, [])
  else
    match count_unique_core f with
    | Except.ok r => r
    | Except.error _ =>
      match count_unique_fallback f with
      | Except.ok r => r
      | Except.error _ => (f.rows.length, 0, [])

/-- State touched by `ORCIDSmartUpdater.has_file_changed`: the content of
the Excel dataset file (`none` when the file is absent) and the content of
the `last_file_hash.txt` store (`none` when no hash was ever saved).
File reads are assumed to succeed when the file exists (the
`get_file_hash` read-error branch, which returns `None`, is not part of
any claim). -/
structure UpdaterState where
  excelFile : Option String
  lastHashStore : Option String
deriving DecidableEq, Repr

/-- Embedding of `has_file_changed` (src/smart_orcid_updater.py lines
62-77), parameterized by the hash function (MD5-hexdigest in the source).
Returns the Bool result and the state after the call:
absent file returns `false`; with no stored hash it returns `true` and
saves the current hash (the save is guarded by Python truthiness
`if current_hash:`, i.e. skipped for an empty hash string — MD5 hex
digests are never empty); otherwise it returns
`current_hash != last_hash` without touching the store. -/
def has_file_changed (md5 : String → String) (st : UpdaterState) :
    Bool × UpdaterState :=
  match st.excelFile with
  | none => (false, st)
  | some content =>
    let current_hash := md5 content
    match st.lastHashStore with
    | none =>
      (true,
       ⟨some content, if current_hash = "" then none else some current_hash⟩)
    | some last_hash => (current_hash != last_hash, st)

/-- JSON values as returned by the registry (`response.json()`), at the
granularity the extraction code distinguishes.  Numbers are modelled as
integers (the fields the code reads numerically are epoch timestamps). -/
inductive Json where
  | null : Json
  | bool : Bool → Json
  | num : Int → Json
  | str : String → Json
  | arr : List Json → Json
  | obj : List (String × Json) → Json

/-- Python truthiness of a JSON value (`if x:`). -/
def truthy : Json → Bool
  | Json.null => false
  | Json.bool b => b
  | Json.num n => n != 0
  | Json.str s => s ≠ ""
  | Json.arr xs => !xs.isEmpty
  | Json.obj fs => !fs.isEmpty

/-- Python `d.get(k, dflt)`: `none` models the `AttributeError` raised
when the receiver is not a dict (caught by the surrounding handlers in
the source). -/
def pyGet (j : Json) (k : String) (dflt : Json) : Option Json :=
  match j with
  | Json.obj fs =>
    match fs.lookup k with
    | some v => some v
    | none => some dflt
  | _ => none

/-- Python `len(x)`: defined for lists, strings and dicts, raises
(`none`) otherwise. -/
def pyLen : Json → Option Nat
  | Json.arr xs => some xs.length
  | Json.str s => some s.length
  | Json.obj fs => some fs.length
  | _ => none

/-- Iteration `for x in j`: list elements, one-character strings of a
string, the keys of a dict; non-iterable values yield nothing (iterating
them raises, which every surrounding handler in the source folds into the
same result as an empty iteration). -/
def pyElems : Json → List Json
  | Json.arr xs => xs
  | Json.str s => s.toList.map fun c => Json.str ⟨[c]⟩
  | Json.obj fs => fs.map fun f => Json.str f.1
  | _ => []

/-- Python `x[0]`: head of a list, first character of a non-empty string;
`none` models the exception raised on any other receiver. -/
def pyIndex0 : Json → Option Json
  | Json.arr (x :: _) => some x
  | Json.arr [] => none
  | Json.str s => if s = "" then none else some (Json.str (s.take 1))
  | _ => none

/-- Embedding of `ORCIDSmartUpdater.extract_title`: `work['title']['title']
['value']` with Python-truthiness guards at each level; any raise inside
the `try:` and every missing path give the default string
`'Unknown Title'`. -/
def extract_title (work : Json) : Json :=
  match pyGet work "title" (Json.obj []) with
  | none => Json.str "Unknown Title"
  | some ti =>
    if truthy ti then
      match pyGet ti "title" (Json.obj []) with
      | none => Json.str "Unknown Title"
      | some tv =>
        if truthy tv then
          match pyGet tv "value" (Json.str "Unknown Title") with
          | none => Json.str "Unknown Title"
          | some v => v
        else Json.str "Unknown Title"
    else Json.str "Unknown Title"

/-- Cleaning applied by `extract_doi` to a found DOI string:
`doi_value.lower().replace('https://doi.org/', '')
.replace('http://doi.org/', '').strip()` (note: `str.replace` replaces
every occurrence, unlike the anchored regexes of the dashboard
`clean_doi`). -/
def extract_doi_clean (s : String) : String :=
  pyStrip (((pyLower s).replace "https://doi.org/" "").replace
    "http://doi.org/" "")

/-- The `for ext_id in external_id_list:` loop of `extract_doi`: returns
the cleaned value of the first entry typed `'doi'` with a truthy value;
`none` models a raise inside the loop (non-dict entry, or a `.lower()`
on a non-string value), which the outer handler folds to `''`. -/
def extract_doi_loop : List Json → Option String
  | [] => some ""
  | e :: rest =>
    match pyGet e "external-id-type" Json.null with
    | none => none
    | some t =>
      match t with
      | Json.str "doi" =>
        match pyGet e "external-id-value" (Json.str "") with
        | none => none
        | some v =>
          if truthy v then
            match v with
            | Json.str s => some (extract_doi_clean s)
            | _ => none
          else extract_doi_loop rest
      | _ => extract_doi_loop rest

/-- Embedding of `ORCIDSmartUpdater.extract_doi`: walk
`work['external-ids']['external-id']`, return the first cleaned
`'doi'`-typed value; every failure path returns `''`. -/
def extract_doi (work : Json) : String :=
  match pyGet work "external-ids" (Json.obj []) with
  | none => ""
  | some ei =>
    if truthy ei then
      match pyGet ei "external-id" (Json.arr []) with
      | none => ""
      | some lst => (extract_doi_loop (pyElems lst)).getD ""
    else ""

/-- Calendar year of an epoch-milliseconds timestamp (UTC), the value of
`pd.to_datetime(timestamp, unit='ms').year`; days-to-civil conversion in
floor arithmetic. -/
def msToYear (ms : Int) : Int :=
  let z := Int.fdiv ms 86400000 + 719468
  let era := Int.fdiv z 146097
  let doe := z - era * 146097
  let yoe :=
    Int.fdiv (doe - Int.fdiv doe 1460 + Int.fdiv doe 36524 -
      Int.fdiv doe 146096) 365
  let y := yoe + era * 400
  let doy := doe - (365 * yoe + Int.fdiv yoe 4 - Int.fdiv yoe 100)
  let mp := Int.fdiv (5 * doy + 2) 153
  let m := if mp < 10 then mp + 3 else mp - 9
  if m ≤ 2 then y + 1 else y

/-- Embedding of `ORCIDSmartUpdater.extract_year`: prefer
`work['publication-date']['year']['value']` (any raise on that path falls
through); else the year of the epoch-ms `work['created-date']['value']`
(non-numeric timestamps make `pd.to_datetime` raise, which falls
through); else `''`. -/
def extract_year (work : Json) : Json :=
  let fromCreated :=
    match pyGet work "created-date" (Json.obj []) with
    | none => Json.str ""
    | some cd =>
      if truthy cd then
        match pyGet cd "value" (Json.num 0) with
        | none => Json.str ""
        | some ts =>
          if truthy ts then
            match ts with
            | Json.num n => Json.num (msToYear n)
            | Json.bool true => Json.num (msToYear 1)
            | _ => Json.str ""
          else Json.str ""
      else Json.str ""
  match pyGet work "publication-date" (Json.obj []) with
  | none => fromCreated
  | some pd_ =>
    if truthy pd_ then
      match pyGet pd_ "year" (Json.obj []) with
      | none => fromCreated
      | some yv =>
        if truthy yv then
          match pyGet yv "value" (Json.str "") with
          | none => fromCreated
          | some v => v
        else fromCreated
    else fromCreated

/-- Embedding of `ORCIDSmartUpdater.extract_journal`: prefer a truthy
`work['journal-title']`, else `work['source']['source-name']['value']`,
else `''`; raises on either path degrade to `''`. -/
def extract_journal (work : Json) : Json :=
  match pyGet work "journal-title" (Json.str "") with
  | none => Json.str ""
  | some jt =>
    if truthy jt then jt
    else
      match pyGet work "source" (Json.obj []) with
      | none => Json.str ""
      | some src =>
        if truthy src then
          match pyGet src "source-name" (Json.obj []) with
          | none => Json.str ""
          | some sn =>
            if truthy sn then
              match pyGet sn "value" (Json.str "") with
              | none => Json.str ""
              | some v => v
            else Json.str ""
        else Json.str ""

/-- Embedding of `ORCIDSmartUpdater.extract_url`:
`work['url']['value']` behind a truthiness guard, default `''`. -/
def extract_url (work : Json) : Json :=
  match pyGet work "url" (Json.obj []) with
  | none => Json.str ""
  | some ui =>
    if truthy ui then
      match pyGet ui "value" (Json.str "") with
      | none => Json.str ""
      | some v => v
    else Json.str ""

/-- One extracted publication-detail dict, as appended by
`extract_publication_details`. -/
structure PubDetail where
  title : Json
  doi : String
  year : Json
  journal : Json
  url : Json

/-- The dict built from one work summary inside
`extract_publication_details`. -/
def extract_work_detail (work : Json) : PubDetail :=
  ⟨extract_title work, extract_doi work, extract_year work,
    extract_journal work, extract_url work⟩

/-- Embedding of `ORCIDSmartUpdater.extract_publication_details`
(src/smart_orcid_updater.py lines 143-185).  Per work group:
`work_summary = group.get('work-summary', [])` (a raise — non-dict group —
is caught by the per-group handler and skips the group), `if not
work_summary: continue`, `work = work_summary[0]` (a raise — truthy
non-indexable — also skips the group), then the five total field
extractors and one `append`. -/
def extract_publication_details (work_groups : List Json) : List PubDetail :=
  match work_groups with
  | [] => []
  | group :: rest =>
    match pyGet group "work-summary" (Json.arr []) with
    | none => extract_publication_details rest
    | some ws =>
      if truthy ws then
        match pyIndex0 ws with
        | none => extract_publication_details rest
        | some work => extract_work_detail work :: extract_publication_details rest
      else extract_publication_details rest

/-- Embedding of the format check of `test_orcid_validity_with_works`:
`re.match(r'^\d{4}-\d{4}-\d{4}-\d{3}[\dX]$', orcid_clean)` — nineteen
characters, three dash-separated groups of four digits, then three digits
and a final digit or uppercase `X`. -/
def is_valid_orcid_format (s : String) : Bool :=
  match s.toList with
  | [a, b, c, d, d1, e, f, g, h, d2, i, j, k, l, d3, m, n, o, p] =>
    a.isDigit && b.isDigit && c.isDigit && d.isDigit && d1 = '-' &&
    e.isDigit && f.isDigit && g.isDigit && h.isDigit && d2 = '-' &&
    i.isDigit && j.isDigit && k.isDigit && l.isDigit && d3 = '-' &&
    m.isDigit && n.isDigit && o.isDigit && (p.isDigit || p = 'X')
  | _ => false

/-- Outcome of the registry call
`requests.get(f'https://pub.orcid.org/v3.0/{id}/works')` as the code
distinguishes it: a 200 with a parsed JSON body, a 200 whose body fails
to parse, a 404, any other status code, or a transport-level exception. -/
inductive ApiResp where
  | ok : Json → ApiResp
  | parseError : ApiResp
  | notFound : ApiResp
  | status : Nat → ApiResp
  | netError : ApiResp

/-- Embedding of `ORCIDSmartUpdater.test_orcid_validity_with_works`
(src/smart_orcid_updater.py lines 99-141): falsy or missing identifier
returns `(False, 0, [])`; the stripped identifier is shape-checked; on a
200 the work-group list is `data.get('group', [])`, the raw publication
count is `len(work_groups)` and the details are extracted from it; a 404,
any other status, a JSON-parse failure and a transport failure all return
`(False, 0, [])` — the function itself never raises out of its `try:`. -/
def test_orcid_validity_with_works (orcid_id : Option String)
    (resp : ApiResp) : Bool × Nat × List PubDetail :=
  match orcid_id with
  | none => (false, 0, [])
  | some s =>
    if s = "" then (false, 0, [])
    else
      let orcid_clean := pyStrip s
      if !is_valid_orcid_format orcid_clean then (false, 0, [])
      else
        match resp with
        | ApiResp.ok data =>
          match pyGet data "group" (Json.arr []) with
          | none => (false, 0, [])
          | some work_groups =>
            match pyLen work_groups with
            | none => (false, 0, [])
            | some publication_count =>
              (true, publication_count,
               extract_publication_details (pyElems work_groups))
        | ApiResp.parseError => (false, 0, [])
        | ApiResp.notFound => (false, 0, [])
        | ApiResp.status _ => (false, 0, [])
        | ApiResp.netError => (false, 0, [])

/-- Embedding of `ORCIDSmartUpdater.save_excel_with_both_sheets`
(src/smart_orcid_updater.py lines 329-343): writing both sheets inside
`pd.ExcelWriter` — the whole write is one step here, parameterized by
whether it raises; the function catches its own exception, logs it and
returns `False`, returning `True` on success.  It never raises to its
caller. -/
def save_excel_with_both_sheets (writeRaises : Bool) : Bool :=
  !writeRaises

/-- The step outcomes that drive one `smart_update` run: whether the
dataset file exists, the result of `has_file_changed()` (modelled in
detail by `has_file_changed` above), the result the
`update_publication_data_only()` branch would return, whether loading or
per-researcher processing inside the `try:` raises, whether the final
Excel write raises, and the value of `get_file_hash` re-read after the
write (`none` for a read failure). -/
structure SmartEnv where
  fileExists : Bool
  fileChanged : Bool
  pubOnlyResult : Bool
  loadRaises : Bool
  writeRaises : Bool
  rehash : Option String
deriving Repr

/-- Observable outcome of one `smart_update` run: the returned Bool, the
Bool that `save_excel_with_both_sheets` reported (`none` when the save
was never reached), and the hash stored by the post-save
`save_current_hash` step (`none` when that step stored nothing). -/
structure SmartOutcome where
  returned : Bool
  saveReported : Option Bool
  hashStored : Option String
deriving DecidableEq, Repr

/-- Embedding of the control flow of `ORCIDSmartUpdater.smart_update`
(src/smart_orcid_updater.py lines 345-445): missing file returns `False`;
an unchanged file delegates to `update_publication_data_only`; a raise
inside the `try:` block is caught and returns `False`; otherwise the
source executes `self.save_excel_with_both_sheets(df_main,
df_publications)` on a line of its own — its Bool result is discarded —
then re-reads the file hash, stores it when truthy, and returns `True`. -/
def smart_update (env : SmartEnv) : SmartOutcome :=
  if !env.fileExists then ⟨false, none, none⟩
  else if !env.fileChanged then ⟨env.pubOnlyResult, none, none⟩
  else if env.loadRaises then ⟨false, none, none⟩
  else
    let saveResult := save_excel_with_both_sheets env.writeRaises
    let current_hash := env.rehash
    let stored :=
      match current_hash with
      | some h => if h = "" then none else some h
      | none => none
    ⟨true, some saveResult, stored⟩

/-- Strip the first matching anchored literal of a list from the start of
a string (at most one is stripped). -/
def stripAnchored (ps : List String) (s : String) : String :=
  match ps with
  | [] => s
  | p :: rest =>
    if strStartsWith s p then strDrop s p.length else stripAnchored rest s

/-- Modelled from the spec (section 4.1) for comparison with the source's
`clean_doi` — normalizeIdentifier: treat missing/empty input as the empty
key; otherwise lowercase, trim, strip a leading resolver prefix
(`https://doi.org/` or `http://doi.org/`) and a leading scheme label
(`doi:`) — only exact anchored prefixes at string start — then trim
residual whitespace. -/
def normalizeIdentifier_spec (c : Cell) : String :=
  if c = Cell.na ∨ cellStr c = "" then ""
  else
    let t := pyStrip (pyLower (cellStr c))
    let t := stripAnchored ["https://doi.org/", "http://doi.org/"] t
    let t := stripAnchored ["doi:"] t
    pyStrip t

/-- The two punctuation-removal character classes coincide: a newline is
already whitespace, so listing it separately changes nothing. -/
theorem keepClass_eq (ch : Char) :
    (ch = '\n' || pyIsWord ch || pyIsSpace ch) = (pyIsWord ch || pyIsSpace ch) := by
  by_cases h : ch = '\n'
  · subst h; decide
  · simp [h]

/-- The two `clean_text` variants are the same function. -/
theorem clean_text_root_eq : clean_text_root = clean_text := by
  funext c
  cases c <;> simp [clean_text, clean_text_root, keepClass_eq]

/-- C10: the two near-identical dashboard variants implement extensionally
equal dedup logic — for every input, `count_unique_publications` of
src/dashboard_app.py and of src/ScienceBase/dashboard_app.py (each with
its own helpers) return the same (uniqueCount, removedCount,
uniqueRecords) triple. -/
theorem c10_variants_extensionally_equal (rows : List Row) :
    count_unique_publications_root rows = count_unique_publications rows := by
  simp [count_unique_publications, count_unique_publications_root,
    annotate, annotate_root, clean_text_root_eq]

/-- C1 (behavior of the code at the claim's own instance): two records
with title "AI" (length 2), matching journal and year and no identifier
are NOT both retained — pass 1 collapses the two empty identifier keys,
the sole survivor fails eligibility and is dropped from
`unique_publications`, so the function returns uniqueCount 0, removed 1,
and an empty unique set. -/
theorem c1_short_title_records_dropped :
    count_unique_publications
      [⟨Cell.na, Cell.str "AI", Cell.str "Journal of AI", Cell.int 2021⟩,
       ⟨Cell.na, Cell.str "AI", Cell.str "Journal of AI", Cell.int 2021⟩] =
      (0, 1, []) := by
  decide

/-- C2 (behavior of the code at a failing input): one record whose title
is missing survives pass 1, fails eligibility, and is counted neither as
unique nor as removed: the function returns (0, 0, []) on a 1-element
input, so uniqueCount + removedCount is 0, not 1. -/
theorem c2_counts_do_not_sum_to_input :
    count_unique_publications [⟨Cell.na, Cell.na, Cell.na, Cell.na⟩] =
      (0, 0, []) ∧
    (0 + 0 : Nat) ≠
      ([(⟨Cell.na, Cell.na, Cell.na, Cell.na⟩ : Row)]).length := by
  decide

/-- C3 (behavior of the code at a failing input): two records with empty
identifiers and long, entirely different titles are collapsed by pass 1 —
`drop_duplicates(subset=['doi_clean'])` treats the two empty keys as
duplicates of each other — so only the first record survives and the
second is counted as an identifier duplicate. -/
theorem c3_empty_identifier_keys_collapse :
    count_unique_publications
      [⟨Cell.na, Cell.str "A very long distinct first title", Cell.str "J1",
        Cell.int 2020⟩,
       ⟨Cell.na, Cell.str "A completely different second title", Cell.str "J2",
        Cell.int 2021⟩] =
      (1, 1,
       [⟨⟨Cell.na, Cell.str "A very long distinct first title", Cell.str "J1",
          Cell.int 2020⟩,
         "", "a very long distinct first title", "j1", "2020"⟩]) := by
  decide

/-- C4 (counterexample): on a non-empty frame whose `doi` column is
missing, the full algorithm raises (`df['doi']`), the identifier-only
fallback raises too (`df['doi_clean']` was never created), and the final
tier returns `(len(df), 0, pd.DataFrame())` — the third component is the
EMPTY frame, not the full input unlabeled: it has 0 rows while the input
has 1. -/
theorem c4_last_tier_returns_empty_frame :
    count_unique_publications_safe
      ⟨false, true, true, true,
       [⟨Cell.str "10.1/x", Cell.str "A sufficiently long title here",
         Cell.str "J", Cell.int 2020⟩]⟩ =
      (1, 0, []) ∧
    ([] : List CRow).length ≠
      ([(⟨Cell.str "10.1/x", Cell.str "A sufficiently long title here",
          Cell.str "J", Cell.int 2020⟩ : Row)]).length := by
  decide

/-- C4 (amended): `count_unique_publications` never propagates an
exception (the embedding is a total function) and its failure ladder has
exactly three tiers — the full algorithm when all four consumed columns
exist; otherwise identifier-only counting, `(distinct non-empty
normalized identifiers, totalInput - uniqueCount, empty)`, when the
identifier column exists; otherwise `(totalInput, 0, an EMPTY record
collection)` (not the full input). -/
theorem c4_failure_ladder (f : PFrame) (h : f.rows ≠ []) :
    count_unique_publications_safe f =
      if f.hasDoi && f.hasTitle && f.hasJournal && f.hasYear then
        count_unique_body_of (annotate f.rows)
      else if f.hasDoi then
        (fallback_unique_dois f.rows,
         f.rows.length - fallback_unique_dois f.rows, [])
      else (f.rows.length, 0, []) := by
  obtain ⟨d, t, j, y, rows⟩ := f
  have hne : rows.isEmpty = false := by
    cases rows with
    | nil => exact absurd rfl h
    | cons a l => rfl
  cases d <;> cases t <;> cases j <;> cases y <;>
    simp [count_unique_publications_safe, count_unique_core,
      count_unique_fallback, hne]

/-- Witness for `c4_failure_ladder` at a concrete one-row frame with no
identifier column: the ladder lands in the last tier. -/
theorem c4_failure_ladder_witness :
    ([(⟨Cell.na, Cell.na, Cell.na, Cell.na⟩ : Row)] ≠ []) ∧
    count_unique_publications_safe
      ⟨false, false, false, false, [⟨Cell.na, Cell.na, Cell.na, Cell.na⟩]⟩ =
      (1, 0, []) := by
  refine ⟨by decide, ?_⟩
  rw [c4_failure_ladder
    ⟨false, false, false, false, [⟨Cell.na, Cell.na, Cell.na, Cell.na⟩]⟩
    (by decide)]
  decide

/-- C5: `has_file_changed` returns false when the dataset file is absent
(state untouched); when the file exists and no prior hash is stored it
returns true and stores the current content hash (the store is guarded by
Python truthiness of the hash string, which for MD5 hex digests is always
non-empty); otherwise it returns true iff the current content hash
differs from the stored one, without touching the store — so a second
immediate call with no file modification returns false. -/
theorem c5_has_file_changed (md5 : String → String) (content stored : String) :
    (∀ st : Option String,
      has_file_changed md5 ⟨none, st⟩ = (false, ⟨none, st⟩)) ∧
    has_file_changed md5 ⟨some content, none⟩ =
      (true, ⟨some content,
        if md5 content = "" then none else some (md5 content)⟩) ∧
    has_file_changed md5 ⟨some content, some stored⟩ =
      ((md5 content != stored), ⟨some content, some stored⟩) ∧
    (md5 content ≠ "" →
      (has_file_changed md5
        (has_file_changed md5 ⟨some content, none⟩).2).1 = false) := by
  refine ⟨fun st => rfl, rfl, rfl, fun h => ?_⟩
  simp [has_file_changed, h]

/-- Witness for `c5_has_file_changed` with a concrete hash function and
file content: the first run reports a change, the immediate second call
does not. -/
theorem c5_has_file_changed_witness :
    ((fun _ : String => "d41d8cd98f") "data" ≠ "") ∧
    (has_file_changed (fun _ : String => "d41d8cd98f")
      (has_file_changed (fun _ : String => "d41d8cd98f")
        ⟨some "data", none⟩).2).1 = false :=
  ⟨by decide,
   (c5_has_file_changed (fun _ : String => "d41d8cd98f") "data" "old").2.2.2
     (by decide)⟩

/-- C6: for a shape-valid identifier, a 200 registry response with a
`group` list yields (valid, raw count = number of work groups, extracted
details); a 404, any other status, a JSON-parse failure and a transport
failure all yield (invalid, 0, no details) — and the embedding is a total
function, so nothing escapes the per-researcher call and the batch
continues. -/
theorem c6_registry_outcomes (orcid_id : String)
    (h : is_valid_orcid_format (pyStrip orcid_id) = true)
    (groups : List Json) (code : Nat) :
    test_orcid_validity_with_works (some orcid_id)
        (ApiResp.ok (Json.obj [("group", Json.arr groups)])) =
      (true, groups.length, extract_publication_details groups) ∧
    test_orcid_validity_with_works (some orcid_id) ApiResp.notFound =
      (false, 0, []) ∧
    test_orcid_validity_with_works (some orcid_id) (ApiResp.status code) =
      (false, 0, []) ∧
    test_orcid_validity_with_works (some orcid_id) ApiResp.netError =
      (false, 0, []) ∧
    test_orcid_validity_with_works (some orcid_id) ApiResp.parseError =
      (false, 0, []) := by
  have hne : orcid_id ≠ "" := by
    intro he
    rw [he] at h
    exact absurd h (by decide)
  simp [test_orcid_validity_with_works, hne, h, pyGet, pyLen, pyElems,
    List.lookup]

/-- Witness for `c6_registry_outcomes` at a concrete well-formed
identifier: a 404 yields invalid with zero publications. -/
theorem c6_registry_outcomes_witness :
    (is_valid_orcid_format (pyStrip "0000-0002-1825-0097") = true) ∧
    test_orcid_validity_with_works (some "0000-0002-1825-0097")
      ApiResp.notFound = (false, 0, []) :=
  ⟨by decide,
   (c6_registry_outcomes "0000-0002-1825-0097" (by decide) [] 500).2.1⟩

/-- C7 (behavior of the code at the failing input "the final Excel write
raises"): `save_excel_with_both_sheets` catches its own exception and
reports failure by returning False, but `smart_update` discards that
result, still stores the freshly computed file hash, and returns True —
the run completes as successful and the post-write fingerprint step runs
even though nothing was written. -/
theorem c7_save_failure_not_fatal :
    save_excel_with_both_sheets true = false ∧
    smart_update ⟨true, true, false, false, true, some "newhash"⟩ =
      ⟨true, some false, some "newhash"⟩ := by
  decide

/-- Per work group at most one detail entry is appended, so the extracted
list is never longer than the group list. -/
theorem extract_details_length_le (groups : List Json) :
    (extract_publication_details groups).length ≤ groups.length := by
  induction groups with
  | nil => simp [extract_publication_details]
  | cons g gs ih =>
    cases hg : pyGet g "work-summary" (Json.arr []) with
    | none =>
      simpa [extract_publication_details, hg] using Nat.le_succ_of_le ih
    | some ws =>
      by_cases ht : truthy ws
      · cases hi : pyIndex0 ws with
        | none =>
          simpa [extract_publication_details, hg, ht, hi] using
            Nat.le_succ_of_le ih
        | some w =>
          simpa [extract_publication_details, hg, ht, hi] using
            Nat.succ_le_succ ih
      · simpa [extract_publication_details, hg, ht] using Nat.le_succ_of_le ih

/-- C9: the publication-details extraction yields at most one entry per
work group; a group whose work-summary is missing or empty, or whose
access raises (here: a non-dict group), contributes no entry; so the
details list can be strictly shorter than the work-group count — the
reported raw publication count. -/
theorem c9_details_at_most_one_per_group (groups rest : List Json) :
    (extract_publication_details groups).length ≤ groups.length ∧
    extract_publication_details (Json.obj [] :: rest) =
      extract_publication_details rest ∧
    extract_publication_details
        (Json.obj [("work-summary", Json.arr [])] :: rest) =
      extract_publication_details rest ∧
    extract_publication_details (Json.null :: rest) =
      extract_publication_details rest ∧
    (extract_publication_details
        [Json.obj [("work-summary", Json.arr [])],
         Json.obj [("work-summary", Json.arr [Json.obj []])]]).length < 2 :=
  ⟨extract_details_length_le groups, rfl, rfl, rfl, by decide⟩

/-- C8: the two anchor examples normalize to `10.1/abc`, missing and
empty identifiers map to the empty key, and in general the source's
`clean_doi` coincides with the spec-worded normalizeIdentifier
(lowercase, trim, strip one exact anchored resolver prefix and one
anchored scheme label, trim again). -/
theorem c8_normalize_identifier :
    clean_doi (Cell.str "https://doi.org/10.1/ABC") = "10.1/abc" ∧
    clean_doi (Cell.str "DOI:10.1/abc") = "10.1/abc" ∧
    clean_doi Cell.na = "" ∧
    clean_doi (Cell.str "") = "" ∧
    (∀ c : Cell, clean_doi c = normalizeIdentifier_spec c) := by
  refine ⟨by decide, by decide, by decide, by decide, fun c => ?_⟩
  by_cases h0 : c = Cell.na ∨ cellStr c = ""
  · simp [clean_doi, normalizeIdentifier_spec, h0]
  · simp only [clean_doi, normalizeIdentifier_spec, stripAnchored, if_neg h0]
    have l1 : ("https://doi.org/" : String).length = 16 := rfl
    have l2 : ("http://doi.org/" : String).length = 15 := rfl
    have l3 : ("doi:" : String).length = 4 := rfl
    rw [l1, l2, l3]
